import Mathlib

/-!
Verification development for the article-censorship analysis tool (`src/run.py`).

The repository is a single Streamlit script.  The definitions below are a
shallow embedding of the functions the claims are about:

* `query_model_async` (src/run.py:351-380): one request/response cycle against
  one model.  The network is abstracted by `net : String → Nat → Exchange`,
  giving for each model identifier and each attempt index the outcome of the
  HTTP POST (the api key, context and prompt are fixed throughout one dispatch
  and are absorbed into `net`).  The function issues exactly one
  `requests.post` call, so only attempt index 0 is ever consulted; the
  `attempts` field of the produced `QueryResult` records that one request was
  made.
* `query_models_concurrent` (src/run.py:382-409): the thread-pool fan-out.
  Its only observable effect is the dict built by the `as_completed` loop, so
  it is embedded as a fold of dict insertions over `completions`, the order in
  which the futures complete; the real batch submits `models` and
  `completions` ranges over the permutations of `models`.
* `max_workers` (src/run.py:395), `extract_risk_score` (src/run.py:412-443),
  `create_markdown_content` (src/run.py:489-525), the Test A/B configuration
  of `process_article` (src/run.py:544-547) and the start-button gating
  (src/run.py:603).

Python dicts are embedded as ordered association lists (`List (String ×
String)`): assignment keeps the position of an existing key and appends new
keys, exactly like CPython's insertion-ordered dicts.
-/

namespace Aihubmix

/-! ## String utilities mirroring the Python primitives used by the script -/

/-- Python `str.strip()`: remove whitespace from both ends. -/
def pyStrip (s : String) : String :=
  String.mk (((s.data.dropWhile Char.isWhitespace).reverse.dropWhile Char.isWhitespace).reverse)

/-- Python `str(e)[:80]` (src/run.py:379). -/
def take80 (s : String) : String := String.mk (s.data.take 80)

/-- Number of (possibly overlapping) occurrences of `pat` in a character list;
`countOccs p s ≠ 0` is Python's substring test `p in s` for non-empty `p`. -/
def countOccs (pat : List Char) : List Char → Nat
  | [] => 0
  | c :: rest => (if pat.isPrefixOf (c :: rest) then 1 else 0) + countOccs pat rest

/-- Python substring membership `pat in s` (for the non-empty literals used). -/
def containsSub (pat s : String) : Bool := countOccs pat.data s.data != 0

/-- Python `", ".join(models_list)` (src/run.py:496). -/
def joinComma : List String → String
  | [] => ""
  | [m] => m
  | m :: rest => m ++ ", " ++ joinComma rest

/-! ## Network model and the query executor (src/run.py:351-380) -/

/-- Shape of the JSON body of a 2xx response, as far as the script inspects it:
either the OpenAI choices-array shape `{'choices':[{'message':{'content':…}}]}`,
a flat `{'content': …}` shape, or anything else (carried as its raw text). -/
inductive RespBody
  | choices (content : String)
  | flat (content : String)
  | other (raw : String)
deriving DecidableEq

/-- Outcome of one HTTP POST to the chat-completion endpoint: a transport
failure (timeout, connection error, …), a non-2xx status (which
`raise_for_status` turns into an exception), or a 2xx response body. -/
inductive Exchange
  | transportError (msg : String)
  | httpError (status : Nat) (msg : String)
  | response (body : RespBody)
deriving DecidableEq

/-- The body of the `try:` block of `query_model_async` (src/run.py:353-377)
for one exchange: `raise_for_status` re-raises transport/HTTP failures, and
`result['choices'][0]['message']['content'].strip()` succeeds only on the
choices-array shape — any other shape raises `KeyError('choices')`, whose
`str` is `'choices'` (with quotes). -/
def attemptRequest (ex : Exchange) : Except String String :=
  match ex with
  | .transportError msg => .error msg
  | .httpError _ msg => .error msg
  | .response (.choices content) => .ok (pyStrip content)
  | .response (.flat _) => .error "'choices'"
  | .response (.other _) => .error "'choices'"

/-- The spec's `QueryResult`; `ok` records which branch of the `try/except`
produced `text`, and `attempts` the number of `requests.post` calls made. -/
structure QueryResult where
  model : String
  text : String
  ok : Bool
  attempts : Nat
deriving DecidableEq

/-- `query_model_async` (src/run.py:351-380).  The network is `net`; the
function performs exactly one request (attempt index 0).  On success it
returns the stripped answer; any exception is caught and turned into the
failure text built at src/run.py:379-380. -/
def query_model_async (net : String → Nat → Exchange) (model : String) : QueryResult :=
  match attemptRequest (net model 0) with
  | .ok content => ⟨model, content, true, 1⟩
  | .error e =>
      ⟨model, "模型调用失败：" ++ take80 e ++ "（请检查API密钥有效性或模型是否支持）", false, 1⟩

/-! ## Concurrent dispatch (src/run.py:382-409) -/

/-- Python dict assignment `d[k] = v` on an insertion-ordered association
list: update the existing slot in place, else append at the end. -/
def dict_insert : List (String × String) → String → String → List (String × String)
  | [], k, v => [(k, v)]
  | p :: rest, k, v => if p.1 = k then (k, v) :: rest else p :: dict_insert rest k v

/-- Python `d[k]` lookup (as an `Option`). -/
def dict_get : List (String × String) → String → Option String
  | [], _ => none
  | p :: rest, k => if p.1 = k then some p.2 else dict_get rest k

/-- `list(d.keys())` in insertion order. -/
def dict_keys (d : List (String × String)) : List String := d.map Prod.fst

/-- `max_workers = min(5, total_models)` (src/run.py:395). -/
def max_workers (total_models : Nat) : Nat := min 5 total_models

/-- The body of the `as_completed` loop (src/run.py:402-404): one completed
future hands back `(model, response)` and the dict records it. -/
def qmc_step (net : String → Nat → Exchange) (d : List (String × String)) (m : String) :
    List (String × String) :=
  dict_insert d (query_model_async net m).model (query_model_async net m).text

/-- `query_models_concurrent` (src/run.py:382-409).  `completions` is the
order in which the submitted futures complete (any permutation of the
submitted model list); the returned dict is the fold of the `as_completed`
loop.  The progress-bar calls have no effect on the result and are omitted. -/
def query_models_concurrent (net : String → Nat → Exchange) (completions : List String) :
    List (String × String) :=
  if completions.length = 0 then []
  else completions.foldl (qmc_step net) []

/-! ### Dictionary lemmas -/

theorem qma_model (net : String → Nat → Exchange) (m : String) :
    (query_model_async net m).model = m := by
  unfold query_model_async
  split <;> rfl

theorem dict_keys_nil : dict_keys [] = [] := rfl

theorem dict_keys_cons (p : String × String) (d : List (String × String)) :
    dict_keys (p :: d) = p.1 :: dict_keys d := rfl

theorem dict_keys_insert_of_mem (d : List (String × String)) (k v : String)
    (h : k ∈ dict_keys d) : dict_keys (dict_insert d k v) = dict_keys d := by
  induction d with
  | nil => simp [dict_keys_nil] at h
  | cons p rest ih =>
    by_cases hp : p.1 = k
    · simp [dict_insert, hp, dict_keys_cons]
    · have h' : k ∈ dict_keys rest := by
        rw [dict_keys_cons] at h
        rcases List.mem_cons.mp h with h1 | h1
        · exact absurd h1.symm hp
        · exact h1
      simp [dict_insert, hp, dict_keys_cons, ih h']

theorem dict_keys_insert_of_not_mem (d : List (String × String)) (k v : String)
    (h : k ∉ dict_keys d) : dict_keys (dict_insert d k v) = dict_keys d ++ [k] := by
  induction d with
  | nil => simp [dict_insert, dict_keys_cons, dict_keys_nil]
  | cons p rest ih =>
    rw [dict_keys_cons] at h
    have hpk : ¬ p.1 = k := fun e => h (List.mem_cons.mpr (Or.inl e.symm))
    have hrest : k ∉ dict_keys rest := fun e => h (List.mem_cons.mpr (Or.inr e))
    simp [dict_insert, hpk, dict_keys_cons, ih hrest]

theorem mem_dict_keys_insert (d : List (String × String)) (k v a : String) :
    a ∈ dict_keys (dict_insert d k v) ↔ a ∈ dict_keys d ∨ a = k := by
  by_cases h : k ∈ dict_keys d
  · rw [dict_keys_insert_of_mem d k v h]
    constructor
    · exact Or.inl
    · rintro (h1 | rfl)
      · exact h1
      · exact h
  · rw [dict_keys_insert_of_not_mem d k v h]
    simp [List.mem_append]

theorem mem_dict_insert (d : List (String × String)) (k v : String) (p : String × String)
    (hp : p ∈ dict_insert d k v) : p ∈ d ∨ p = (k, v) := by
  induction d with
  | nil =>
    simp [dict_insert] at hp
    simp [hp]
  | cons q rest ih =>
    by_cases h : q.1 = k
    · simp [dict_insert, h] at hp
      rcases hp with h1 | h1
      · exact Or.inr (by simp [h1])
      · exact Or.inl (by simp [h1])
    · simp [dict_insert, h] at hp
      rcases hp with h1 | h1
      · exact Or.inl (by simp [h1])
      · rcases ih h1 with h2 | h2
        · exact Or.inl (by simp [h2])
        · exact Or.inr h2

theorem dict_get_of_entries (v : String → String) (d : List (String × String))
    (hd : ∀ p ∈ d, p.2 = v p.1) (k : String) (hk : k ∈ dict_keys d) :
    dict_get d k = some (v k) := by
  induction d with
  | nil => simp [dict_keys] at hk
  | cons p rest ih =>
    by_cases h : p.1 = k
    · have hp := hd p (by simp)
      subst h
      simp [dict_get, hp]
    · have hk' : k ∈ dict_keys rest := by
        rw [dict_keys_cons] at hk
        rcases List.mem_cons.mp hk with h1 | h1
        · exact absurd h1.symm h
        · exact h1
      simpa [dict_get, h] using ih (fun q hq => hd q (by simp [hq])) hk'

theorem mem_keys_foldl (net : String → Nat → Exchange) (cs : List String)
    (d : List (String × String)) (a : String) :
    a ∈ dict_keys (cs.foldl (qmc_step net) d) ↔ a ∈ dict_keys d ∨ a ∈ cs := by
  induction cs generalizing d with
  | nil => simp
  | cons c cs ih =>
    rw [List.foldl_cons, ih]
    simp [qmc_step, mem_dict_keys_insert, qma_model]
    tauto

theorem entries_foldl (net : String → Nat → Exchange) (cs : List String)
    (d : List (String × String))
    (hd : ∀ p ∈ d, p.2 = (query_model_async net p.1).text) :
    ∀ p ∈ cs.foldl (qmc_step net) d, p.2 = (query_model_async net p.1).text := by
  induction cs generalizing d with
  | nil => exact hd
  | cons c cs ih =>
    rw [List.foldl_cons]
    refine ih _ ?_
    intro p hp
    rcases mem_dict_insert _ _ _ p hp with h | h
    · exact hd p h
    · rw [h]
      simp [qma_model]

theorem keys_foldl_of_nodup (net : String → Nat → Exchange) (cs : List String)
    (d : List (String × String)) (hnd : cs.Nodup) (hdis : ∀ a ∈ cs, a ∉ dict_keys d) :
    dict_keys (cs.foldl (qmc_step net) d) = dict_keys d ++ cs := by
  induction cs generalizing d with
  | nil => simp
  | cons c cs ih =>
    have h1 : c ∉ dict_keys d := hdis c (by simp)
    have hstep : dict_keys (qmc_step net d c) = dict_keys d ++ [c] := by
      have := dict_keys_insert_of_not_mem d c (query_model_async net c).text
      simpa [qmc_step, qma_model] using this (by simpa [qma_model] using h1)
    have hnd' := (List.nodup_cons.mp hnd).2
    have hc := (List.nodup_cons.mp hnd).1
    rw [List.foldl_cons, ih (qmc_step net d c) hnd' ?disj, hstep, List.append_assoc]
    · rfl
    case disj =>
      intro a ha
      rw [hstep]
      intro hmem
      rcases List.mem_append.mp hmem with h2 | h2
      · exact hdis a (List.mem_cons.mpr (Or.inr ha)) h2
      · have he : a = c := by simpa using h2
        exact hc (he ▸ ha)

/-! ## Claim C1: the dispatch covers every submitted model exactly once -/

/-- **C1.** For every non-empty list of selected models and every completion
order of the concurrent queries, `query_models_concurrent` returns a mapping
whose key set is exactly the set of submitted models, and each model's entry
is the text produced by its own `query_model_async` call — so a model whose
request failed contributes its failure text without cancelling, blocking or
omitting any sibling model's entry (each entry depends only on that model's
own exchange). -/
theorem dispatch_covers_every_model (net : String → Nat → Exchange)
    (models completions : List String) (hne : models ≠ [])
    (hperm : completions.Perm models) :
    (dict_keys (query_models_concurrent net completions)).toFinset = models.toFinset ∧
    ∀ m ∈ models, dict_get (query_models_concurrent net completions) m =
      some (query_model_async net m).text := by
  have hlen : ¬ completions.length = 0 := by
    rw [hperm.length_eq]
    simpa [List.length_eq_zero] using hne
  have hq : query_models_concurrent net completions = completions.foldl (qmc_step net) [] := by
    rw [query_models_concurrent, if_neg hlen]
  constructor
  · ext a
    rw [hq]
    simp only [List.mem_toFinset]
    rw [mem_keys_foldl net completions [] a]
    simp [dict_keys_nil, hperm.mem_iff]
  · intro m hm
    rw [hq]
    have hmem : m ∈ dict_keys (completions.foldl (qmc_step net) []) := by
      rw [mem_keys_foldl net completions [] m]
      exact Or.inr (hperm.mem_iff.mpr hm)
    exact dict_get_of_entries (fun k => (query_model_async net k).text) _
      (entries_foldl net completions [] (by intro p hp; simp at hp)) m hmem

/-- A concrete network: model "a" answers, model "b" suffers a transport
failure. -/
def net0 : String → Nat → Exchange := fun m _ =>
  if m = "b" then Exchange.transportError "boom" else Exchange.response (RespBody.choices ("ans" ++ m))

/-- Witness for C1: two models, "b" failing, completing in the order b-then-a. -/
theorem dispatch_covers_every_model_witness :
    (dict_keys (query_models_concurrent net0 ["b", "a"])).toFinset =
      (["a", "b"] : List String).toFinset ∧
    dict_get (query_models_concurrent net0 ["b", "a"]) "b" =
      some (query_model_async net0 "b").text :=
  ⟨(dispatch_covers_every_model net0 ["a", "b"] ["b", "a"] (by decide)
      (List.Perm.swap "a" "b" [])).1,
   (dispatch_covers_every_model net0 ["a", "b"] ["b", "a"] (by decide)
      (List.Perm.swap "a" "b" [])).2 "b" (by decide)⟩

/-! ## Claim C2: retry/backoff -/

/-- A per-attempt network that fails deterministically `N` times and then
succeeds with answer `ans` (the claim's test harness). -/
def failThen (N : Nat) (ans : String) : String → Nat → Exchange :=
  fun _ i => if i < N then Exchange.transportError "Connection timed out"
             else Exchange.response (RespBody.choices ans)

/-- **C2, counterexample.** The claim says the executor retries with
exponential backoff and that a task failing once and then succeeding (N = 1)
ends in `Success` with `attempts = 2` (for any `maxRetries ≥ 1`).  The code
has no retry loop at all: against `failThen 1`, `query_model_async` issues a
single request, never consults attempt 1 (which would succeed), and returns a
terminal failure with `attempts = 1`. -/
theorem single_failure_is_terminal :
    (query_model_async (failThen 1 "ok") "gpt-4o").ok = false ∧
    (query_model_async (failThen 1 "ok") "gpt-4o").attempts = 1 := by
  constructor <;> rfl

/-- **C2, amended.** `query_model_async` makes exactly one attempt per task —
no retries and no backoff delays exist in the code.  Against a network that
fails the first `N` attempts and then succeeds, the result always has
`attempts = 1` and is a `Success` precisely when `N = 0` (equivalently, the
claim's success/failure schema holds only with `maxRetries = 0`). -/
theorem executor_makes_exactly_one_attempt (N : Nat) (ans m : String) :
    (query_model_async (failThen N ans) m).attempts = 1 ∧
    ((query_model_async (failThen N ans) m).ok = true ↔ N = 0) := by
  cases N with
  | zero => simp [query_model_async, failThen, attemptRequest]
  | succ n => simp [query_model_async, failThen, attemptRequest]

/-! ## Claim C3: insertion order of the result mapping -/

/-- A network where every model answers with its own name. -/
def netEcho : String → Nat → Exchange := fun m _ => Exchange.response (RespBody.choices m)

/-- **C3, counterexample.** The claim says the mapping's insertion order is
the configured model-list order regardless of completion order.  With the
configured list `["m1", "m2"]` and the (valid) completion order
`["m2", "m1"]`, the code's `as_completed` loop inserts keys in completion
order, so the mapping's key order is `["m2", "m1"]`, not the configured
`["m1", "m2"]` — no reordering happens at aggregation time. -/
theorem insertion_order_not_configured_order :
    List.Perm ["m2", "m1"] ["m1", "m2"] ∧
    dict_keys (query_models_concurrent netEcho ["m2", "m1"]) ≠ ["m1", "m2"] := by
  constructor
  · exact List.Perm.swap "m1" "m2" []
  · decide

/-- **C3, amended.** The insertion order of the result mapping — and hence
the per-model order of subsections in the rendered report, which iterates the
mapping in insertion order — is the completion order of the concurrent
queries: for any duplicate-free completion order, the key list equals the
completion order itself. -/
theorem insertion_order_is_completion_order (net : String → Nat → Exchange)
    (completions : List String) (hnd : completions.Nodup) :
    dict_keys (query_models_concurrent net completions) = completions := by
  by_cases hlen : completions.length = 0
  · have : completions = [] := List.length_eq_zero.mp hlen
    subst this
    rfl
  · rw [query_models_concurrent, if_neg hlen]
    have := keys_foldl_of_nodup net completions [] hnd
      (by intro a _; simp [dict_keys_nil])
    simpa [dict_keys_nil] using this

/-- Witness for the amended C3 at a concrete completion order. -/
theorem insertion_order_is_completion_order_witness :
    dict_keys (query_models_concurrent netEcho ["m2", "m1"]) = ["m2", "m1"] :=
  insertion_order_is_completion_order netEcho ["m2", "m1"] (by decide)

/-! ## Claim C5: concurrency bound -/

/-- Semantics of `ThreadPoolExecutor(max_workers=max_workers(n))`
(src/run.py:397): at every instant, the number of in-flight
`query_model_async` invocations is at most the pool's worker cap. -/
def pool_respects_cap (n : Nat) (inflight : Nat → Nat) : Prop :=
  ∀ t, inflight t ≤ max_workers n

/-- **C5, counterexample.** The claim says the fixed worker cap is 8, so with
8 submitted tasks the pool would admit `min 8 8 = 8` concurrent executions.
The code's cap is 5: `max_workers = min(5, total_models)` gives 5 for 8
tasks, not 8. -/
theorem worker_cap_is_not_eight :
    max_workers 8 = 5 ∧ min 8 8 = 8 ∧ max_workers 8 ≠ min 8 8 := by
  refine ⟨rfl, rfl, ?_⟩
  decide

/-- **C5, amended.** For every task list, at no point are more than
`min 5 (number of tasks)` Query Executor invocations in flight
simultaneously: the fixed cap is 5, and the pool bound `max_workers n` equals
`min 5 n`. -/
theorem inflight_bounded_by_min_five (n : Nat) (inflight : Nat → Nat)
    (h : pool_respects_cap n inflight) (t : Nat) :
    inflight t ≤ min 5 n :=
  h t

/-- Witness for the amended C5: a pool of 3 tasks with 2 in flight. -/
theorem inflight_bounded_by_min_five_witness : (fun _ : Nat => 2) 0 ≤ min 5 3 :=
  inflight_bounded_by_min_five 3 (fun _ => 2) (fun _ => (by decide : 2 ≤ max_workers 3)) 0

/-! ## Claim C6: response-shape parsing -/

/-- A network answering every request with the flat `{'content': …}` shape. -/
def netFlat : String → Nat → Exchange :=
  fun _ _ => Exchange.response (RespBody.flat "hello")

/-- A network answering with a 2xx body of some other shape. -/
def netOther : String → Nat → Exchange :=
  fun _ _ => Exchange.response (RespBody.other "RAWBODY")

/-- **C6, counterexample.** The claim says a flat content-field response
shape is accepted as Success, and that for any other 2xx shape the failure
text includes the raw response body.  The code only reads
`result['choices'][0]['message']['content']`: a flat `{'content': "hello"}`
body raises `KeyError('choices')` and becomes a Failure (not the Success
"hello" the claim requires), and for an `other`-shaped body the failure text
contains the exception text `'choices'` — the raw body "RAWBODY" appears
nowhere in it. -/
theorem flat_content_shape_rejected :
    (query_model_async netFlat "m").ok = false ∧
    (query_model_async netFlat "m").text ≠ "hello" ∧
    countOccs "RAWBODY".data (query_model_async netOther "m").text.data = 0 := by
  refine ⟨rfl, ?_, ?_⟩
  · decide
  · decide

/-- **C6, amended.** Response parsing accepts only the choices-array shape as
Success; every other exchange (transport failure, non-2xx, flat content
field, or any other 2xx body) yields a Failure whose text is the fixed
failure template around the truncated exception message (for a wrong shape
that message is `'choices'`, not the raw body).  No exception propagates:
`query_model_async` is total and every outcome is one of these two forms. -/
theorem only_choices_shape_succeeds (net : String → Nat → Exchange) (m : String) :
    ((query_model_async net m).ok = true ↔
      ∃ c, net m 0 = Exchange.response (RespBody.choices c)) ∧
    ((query_model_async net m).ok = true ∨
      ∃ e, attemptRequest (net m 0) = Except.error e ∧
        (query_model_async net m).text =
          "模型调用失败：" ++ take80 e ++ "（请检查API密钥有效性或模型是否支持）") := by
  cases hx : net m 0 with
  | transportError msg =>
    constructor
    · simp [query_model_async, attemptRequest, hx]
    · exact Or.inr ⟨msg, by simp [attemptRequest, hx],
        by simp [query_model_async, attemptRequest, hx]⟩
  | httpError status msg =>
    constructor
    · simp [query_model_async, attemptRequest, hx]
    · exact Or.inr ⟨msg, by simp [attemptRequest, hx],
        by simp [query_model_async, attemptRequest, hx]⟩
  | response body =>
    cases body with
    | choices c =>
      constructor
      · simp [query_model_async, attemptRequest, hx]
      · exact Or.inl (by simp [query_model_async, attemptRequest, hx])
    | flat c =>
      constructor
      · simp [query_model_async, attemptRequest, hx]
      · exact Or.inr ⟨"'choices'", by simp [attemptRequest, hx],
          by simp [query_model_async, attemptRequest, hx]⟩
    | other raw =>
      constructor
      · simp [query_model_async, attemptRequest, hx]
      · exact Or.inr ⟨"'choices'", by simp [attemptRequest, hx],
          by simp [query_model_async, attemptRequest, hx]⟩

/-! ## Claim C7: payload shaping (src/run.py:354-368) -/

/-- The fixed analyst persona of the system message (src/run.py:355). -/
def analyst_persona : String :=
  "你是一位专业的中文内容分析师，需客观、中立地评估文章审查风险，基于内容本身判断，不加入个人观点。"

/-- The request payload the script builds; `length_field` is the literal dict
key used for the output-length control and `max_output_tokens` its value. -/
structure RequestPayload where
  model : String
  messages : List (String × String)
  temperature : ℚ
  length_field : String
  max_output_tokens : Nat
  timeout : Nat

/-- The payload construction inlined in `query_model_async`
(src/run.py:354-368): a fixed system persona, the user message
`文章内容：{context}\n\n指令：{prompt}`, `temperature` 0.7, and the key
`"max_tokens"` set to 1000 — the same key for every model, with no
model-specific special-casing anywhere in the function. -/
def buildPayload (model context prompt : String) : RequestPayload where
  model := model
  messages := [("system", analyst_persona), ("user", "文章内容：" ++ context ++ "\n\n指令：" ++ prompt)]
  temperature := 7 / 10
  length_field := "max_tokens"
  max_output_tokens := 1000
  timeout := 25

/-- **C7.** The output-length field name is selected by a static allow-list
of models requiring an alternate name — which in this code is the empty list,
so every model uses the default field `"max_tokens"` — and the fixed
generation parameters satisfy `temperature ∈ [0.7, 1.0]` (it is 0.7) and
`max output tokens ∈ [800, 1000]` (it is 1000). -/
theorem payload_field_and_parameter_bounds :
    (∃ alternates : List String, ∃ altField : String, ∀ model context prompt,
      (buildPayload model context prompt).length_field =
        if model ∈ alternates then altField else "max_tokens") ∧
    (∀ model context prompt,
      (7 : ℚ) / 10 ≤ (buildPayload model context prompt).temperature ∧
      (buildPayload model context prompt).temperature ≤ 1 ∧
      800 ≤ (buildPayload model context prompt).max_output_tokens ∧
      (buildPayload model context prompt).max_output_tokens ≤ 1000) := by
  refine ⟨⟨[], "max_tokens", ?_⟩, ?_⟩
  · intro model context prompt
    simp [buildPayload]
  · intro model context prompt
    refine ⟨le_refl _, by norm_num [buildPayload], by norm_num [buildPayload], le_refl _⟩

/-! ## Report assembler (src/run.py:489-525) -/

theorem strDataAppend (a b : String) : (a ++ b).data = a.data ++ b.data := by
  cases a
  cases b
  rfl

theorem strAppendAssoc (a b c : String) : a ++ b ++ c = a ++ (b ++ c) := by
  cases a
  cases b
  cases c
  show String.mk _ = String.mk _
  rw [List.append_assoc]

theorem strAppendEmpty (a : String) : a ++ "" = a := by
  cases a
  show String.mk _ = String.mk _
  rw [List.append_nil]

/-- The image block emitted for Test B when an image was uploaded
(src/run.py:500-503). -/
def imageSection (test_type : String) (image_data : Option String) : String :=
  match image_data with
  | some img =>
      if test_type = "B" then
        "## 审查提示图片\n\n" ++ "![审查提示图](data:image/png;base64," ++ img ++ ")\n\n" ++ "---\n\n"
      else ""
  | none => ""

/-- The two analysis-dimension descriptions hard-coded in
`create_markdown_content` (src/run.py:507-510). -/
def report_prompts : List String :=
  ["判断是否应该删除屏蔽：需回答“非常应该”“应该”“介于应该和不应该之间”“不应该”“非常不应该”，并附判断依据。",
   "判断已被删除屏蔽的可能性：用0-10表示（10=非常有可能，0=非常不可能），并附判断依据。"]

/-- One per-model block of a prompt section (src/run.py:514-517). -/
def renderModelBlock (model response : String) : String :=
  "#### 模型：" ++ model ++ "\n\n" ++ "**结果**：\n" ++ response ++ "\n\n" ++ "---\n\n"

/-- The header line of one prompt section (src/run.py:513). -/
def sectionHeader (i : Nat) (prompt : String) : String :=
  "### 分析维度 " ++ toString i ++ "：" ++ prompt ++ "\n\n"

/-- The body of one prompt section: the model blocks in the mapping's
insertion order (the inner loop at src/run.py:514-517). -/
def sectionBody (mrs : List (String × String)) : String :=
  String.join (mrs.map (fun p => renderModelBlock p.1 p.2))

/-- One prompt section (src/run.py:512-517). -/
def renderSection (i : Nat) (prompt : String) (mrs : List (String × String)) : String :=
  sectionHeader i prompt ++ sectionBody mrs

/-- `for i, (prompt, model_responses) in enumerate(zip(prompts, responses), 1)`
(src/run.py:512). -/
def renderSectionsFrom (i : Nat) : List (String × List (String × String)) → String
  | [] => ""
  | (p, mrs) :: rest => renderSection i p mrs ++ renderSectionsFrom (i + 1) rest

/-- The disclaimer footer (src/run.py:520-523). -/
def report_footer : String :=
  "## 免责声明\n\n" ++
  "1. 本报告基于AI模型分析生成，仅用于研究和参考，不代表任何官方立场。\n" ++
  "2. 分析结果受模型能力、文章内容完整性影响，可能存在偏差，请结合实际情况判断。\n" ++
  "3. 请确保您有权访问和分析目标文章，遵守相关法律法规。\n"

/-- `create_markdown_content` (src/run.py:489-525).  The call
`datetime.now().strftime('%Y-%m-%d %H:%M:%S')` at src/run.py:493 is the only
impure input and is passed explicitly as `now`.  `responses` is the list of
per-prompt result mappings, each an insertion-ordered dict. -/
def create_markdown_content (title : String) (responses : List (List (String × String)))
    (test_type : String) (models_list : List String) (image_data : Option String)
    (content_source : String) (now : String) : String :=
  "# 文章审查分析报告 - " ++ title ++ "\n\n" ++
  "**分析时间**: " ++ now ++ "\n\n" ++
  "**内容来源**: " ++ (if content_source = "text" then "直接文本输入" else "URL抓取") ++ "\n\n" ++
  "**测试版本**: Test " ++ test_type ++
    "（" ++ (if test_type = "B" then "添加审查提示后的内容" else "原始文章内容") ++ "）\n\n" ++
  "**使用模型**: " ++ joinComma models_list ++ "\n\n" ++
  "---\n\n" ++
  imageSection test_type image_data ++
  "## 分析结果汇总\n\n" ++
  renderSectionsFrom 1 (List.zip report_prompts responses) ++
  report_footer

/-- Everything `create_markdown_content` emits before the timestamp. -/
def reportTimePre (title : String) : String :=
  "# 文章审查分析报告 - " ++ title ++ "\n\n" ++ "**分析时间**: "

/-- Everything `create_markdown_content` emits after the timestamp. -/
def reportAfterTime (responses : List (List (String × String))) (test_type : String)
    (models_list : List String) (image_data : Option String) (content_source : String) :
    String :=
  "\n\n" ++
  "**内容来源**: " ++ (if content_source = "text" then "直接文本输入" else "URL抓取") ++ "\n\n" ++
  "**测试版本**: Test " ++ test_type ++
    "（" ++ (if test_type = "B" then "添加审查提示后的内容" else "原始文章内容") ++ "）\n\n" ++
  "**使用模型**: " ++ joinComma models_list ++ "\n\n" ++
  "---\n\n" ++
  imageSection test_type image_data ++
  "## 分析结果汇总\n\n" ++
  renderSectionsFrom 1 (List.zip report_prompts responses) ++
  report_footer

theorem cmc_time_split (title : String) (responses : List (List (String × String)))
    (test_type : String) (models_list : List String) (image_data : Option String)
    (content_source : String) (now : String) :
    create_markdown_content title responses test_type models_list image_data content_source now =
      reportTimePre title ++ (now ++ reportAfterTime responses test_type models_list
        image_data content_source) := by
  simp only [create_markdown_content, reportTimePre, reportAfterTime, strAppendAssoc]

/-! ## Claim C4: report determinism -/

/-- **C4, counterexample.** The claim says running the Report Assembler twice
over the same inputs produces byte-identical output regardless of when the
two runs occur.  `create_markdown_content` embeds `datetime.now()` in the
**分析时间** line, so two runs over identical inputs at different clock
readings produce different bytes. -/
theorem report_differs_across_timestamps :
    create_markdown_content "标题" [] "A" [] none "url" "2025-01-01 08:00:00" ≠
    create_markdown_content "标题" [] "A" [] none "url" "2025-01-01 09:00:00" := by
  intro h
  rw [cmc_time_split, cmc_time_split] at h
  have h2 := congrArg String.data h
  rw [strDataAppend, strDataAppend, strDataAppend, strDataAppend] at h2
  have h3 := List.append_cancel_left h2
  have h4 := List.append_cancel_right h3
  have h5 : ("2025-01-01 08:00:00" : String) = "2025-01-01 09:00:00" := by
    cases hx : ("2025-01-01 08:00:00" : String)
    cases hy : ("2025-01-01 09:00:00" : String)
    rw [hx, hy] at h4
    exact congrArg String.mk h4
  exact absurd h5 (by decide)

/-- **C4, amended.** Report assembly is deterministic in its inputs *and the
clock reading*: the output is exactly a fixed prefix (depending only on the
title), then the timestamp, then a suffix depending only on the remaining
inputs.  Hence two runs over the same completed result mapping (same
insertion order) are byte-identical iff they record the same timestamp; the
output does additionally depend on the mapping's insertion order, which the
suffix consumes as given. -/
theorem report_deterministic_given_timestamp (title : String)
    (responses : List (List (String × String))) (test_type : String)
    (models_list : List String) (image_data : Option String) (content_source : String)
    (now : String) :
    create_markdown_content title responses test_type models_list image_data content_source now =
      reportTimePre title ++ (now ++ reportAfterTime responses test_type models_list
        image_data content_source) :=
  cmc_time_split title responses test_type models_list image_data content_source now

/-! ## Claim C8: skip rendering -/

/-- Whether the 开始分析 button is enabled (src/run.py:603):
`input_valid and len(selected_models) > 0 and api_key.strip()`. -/
def start_enabled (input_valid : Bool) (num_models : Nat) (api_key : String) : Bool :=
  input_valid && decide (0 < num_models) && decide (pyStrip api_key ≠ "")

/-- **C8, counterexample.** The claim says a provider with no credential or
zero selected models is rendered as exactly one "skipped" marker block.  The
code has no skip rendering at all: with zero models the per-prompt section is
exactly its bare header — the body is empty, containing zero blocks of any
kind (no `---`-terminated block, hence no skipped marker block), where the
claim requires one. -/
theorem empty_models_renders_no_skip_block :
    sectionBody [] = "" ∧
    countOccs "---".data (sectionBody []).data = 0 ∧
    renderSection 1 "x" [] = "### 分析维度 1：x\n\n" := by
  refine ⟨rfl, rfl, ?_⟩
  decide

/-- **C8, amended.** A batch with zero selected models renders every prompt
section as the bare section header with an empty body: zero per-model blocks
and zero marker blocks of any kind (nothing is rendered for the missing
models, rather than a "skipped" block).  A missing credential (or zero
selected models) does not reach rendering at all: the 开始分析 button is
disabled, so no report is produced. -/
theorem empty_models_section_is_bare_header :
    (∀ i prompt, renderSection i prompt [] = sectionHeader i prompt) ∧
    countOccs "---".data (sectionBody []).data = 0 ∧
    (∀ input_valid num_models, start_enabled input_valid num_models "" = false) ∧
    (∀ input_valid api_key, start_enabled input_valid 0 api_key = false) := by
  refine ⟨?_, rfl, ?_, ?_⟩
  · intro i prompt
    show sectionHeader i prompt ++ sectionBody [] = sectionHeader i prompt
    show sectionHeader i prompt ++ "" = sectionHeader i prompt
    exact strAppendEmpty _
  · intro input_valid num_models
    simp [start_enabled, pyStrip]
  · intro input_valid api_key
    simp [start_enabled]

/-! ## Claim C9: the two document variants (src/run.py:544-547) -/

/-- One entry of `test_configs` in `process_article`. -/
structure TestConfig where
  label : String
  title : String
  context : String
  desc : String

/-- The `test_configs` list built in `process_article` (src/run.py:544-547):
Test A uses the cleaned content as-is; Test B prepends the censorship notice
to the same cleaned content. -/
def test_configs (title cleaned_content : String) : List TestConfig :=
  [⟨"A", title, cleaned_content, "原始文章内容"⟩,
   ⟨"B", title ++ "_（审查提示版）",
    "此内容因违规无法查看\n\n[审查提示图片]\n\n" ++ cleaned_content, "添加审查提示后的内容"⟩]

/-- The fixed censorship-notice preamble of variant B. -/
def censorship_preamble : String := "此内容因违规无法查看\n\n[审查提示图片]\n\n"

/-- **C9.** For every cleaned document text, variant A's context is the
cleaned text itself and variant B's context is the fixed censorship-notice
preamble concatenated in front of it; in particular both variants share the
same underlying cleaned text and variant A's context is a suffix of variant
B's context. -/
theorem variantB_prepends_preamble (title cleaned : String) :
    (test_configs title cleaned).map TestConfig.context =
      [cleaned, censorship_preamble ++ cleaned] ∧
    List.IsSuffix cleaned.data (censorship_preamble ++ cleaned).data := by
  constructor
  · rfl
  · exact ⟨censorship_preamble.data, (strDataAppend censorship_preamble cleaned).symm⟩

/-! ## Claim C10: risk-score extraction (src/run.py:412-443) -/

/-- Value of a digit run, as `int(...)` of the digit characters. -/
def digitsToNat (l : List Char) : Nat :=
  l.foldl (fun acc c => acc * 10 + (c.toNat - '0'.toNat)) 0

/-- The numeric value of the regex match `\d+(?:\.\d+)?` anchored at the head
of `l` (which must start with a digit): greedy integer digits, then an
optional fractional part requiring at least one digit after the dot. -/
def parseNumberAt (l : List Char) : ℚ :=
  let intDigits := l.takeWhile (fun c => c.isDigit)
  match l.dropWhile (fun c => c.isDigit) with
  | '.' :: r2 =>
      let fracDigits := r2.takeWhile (fun c => c.isDigit)
      if fracDigits = [] then (digitsToNat intDigits : ℚ)
      else (digitsToNat intDigits : ℚ) + (digitsToNat fracDigits : ℚ) / (10 : ℚ) ^ fracDigits.length
  | _ => (digitsToNat intDigits : ℚ)

/-- `re.search(r'(\d+(?:\.\d+)?)', response)` followed by `float(...)`
(src/run.py:436-438): the leftmost match starts at the first digit. -/
def firstNumber : List Char → Option ℚ
  | [] => none
  | c :: rest => if c.isDigit then some (parseNumberAt (c :: rest)) else firstNumber rest

/-- The keyword-to-score table for prompt type 1 (src/run.py:421-427), in
dict insertion order. -/
def score_map : List (String × ℚ) :=
  [("非常应该", 5), ("应该", 4), ("介于应该和不应该之间", 3), ("不应该", 2), ("非常不应该", 1)]

/-- The `for key, score in score_map.items(): if key in response` loop
(src/run.py:430-432). -/
def firstMatchScore : List (String × ℚ) → String → Option ℚ
  | [], _ => none
  | (k, v) :: rest, r => if containsSub k r then some v else firstMatchScore rest r

/-- `extract_risk_score` (src/run.py:412-443).  For prompt type 2 the
extracted number is clamped by `max(0, min(10, score))`; any other prompt
type falls through to `None`. -/
def extract_risk_score (response : String) (prompt_type : Nat) : Option ℚ :=
  if prompt_type = 1 then firstMatchScore score_map response
  else if prompt_type = 2 then
    match firstNumber response.data with
    | some q => some (max 0 (min 10 q))
    | none => none
  else none

theorem firstNumber_none_iff (l : List Char) :
    firstNumber l = none ↔ ∀ c ∈ l, c.isDigit = false := by
  induction l with
  | nil => simp [firstNumber]
  | cons c rest ih =>
    by_cases h : c.isDigit
    · simp [firstNumber, h]
    · simp [firstNumber, h, ih]

/-- **C10.** For every response string, `extract_risk_score` with prompt type
2 returns `None` exactly when the response contains no digit, and otherwise a
score clamped into the closed interval `[0, 10]`; it never returns a value
outside that range. -/
theorem risk_score_clamped_to_range (r : String) :
    (extract_risk_score r 2 = none ↔ ∀ c ∈ r.data, c.isDigit = false) ∧
    (extract_risk_score r 2 = none ∨
      ∃ q, extract_risk_score r 2 = some q ∧ 0 ≤ q ∧ q ≤ 10) := by
  have hs : extract_risk_score r 2 =
      (match firstNumber r.data with
       | some q => some (max 0 (min 10 q))
       | none => none) := by
    norm_num [extract_risk_score]
  cases hf : firstNumber r.data with
  | none =>
    constructor
    · rw [hs, hf]
      simpa using (firstNumber_none_iff r.data).mp hf
    · exact Or.inl (by rw [hs, hf])
  | some q =>
    constructor
    · rw [hs, hf]
      constructor
      · intro h
        exact absurd h (by simp)
      · intro h
        have hnone := (firstNumber_none_iff r.data).mpr h
        rw [hnone] at hf
        exact absurd hf (by simp)
    · refine Or.inr ⟨max 0 (min 10 q), by rw [hs, hf], le_max_left 0 _, ?_⟩
      exact max_le (by norm_num) (min_le_left _ _)

end Aihubmix
